import Mathlib

/-!
Verification of the webgl-streamline-visualizer particle pipeline.

The definitions below are shallow embeddings of the corresponding TypeScript
and GLSL sources.  Machine floats are modelled by exact rationals (`ℚ`) where
the code performs plain arithmetic and comparisons, and by reals (`ℝ`) where
the code uses `Math.pow` with arbitrary exponents or where an expectation over
a uniform random draw is stated.  Random draws (`Math.random()` and the
shader's `gold_noise`, both producing values in `[0, 1)`) are passed in as
explicit arguments.
-/

namespace StreamlineVis

/-- A 2-vector of rationals, standing for a GLSL `vec2` of floats. -/
structure Vec2 where
  x : ℚ
  y : ℚ
deriving DecidableEq, Repr

/-- The out-of-clip-space test of the age-based particle vertex shader:
`pos.x < -1.0 || pos.x > 1.0 || pos.y < -1.0 || pos.y > 1.0`. -/
def outOfClipSpace (p : Vec2) : Bool :=
  p.x < -1 || p.x > 1 || p.y < -1 || p.y > 1

/-- Membership of the closed square `[-1,1]^2` (clip space). -/
def inClosedSquare (p : Vec2) : Prop :=
  -1 ≤ p.x ∧ p.x ≤ 1 ∧ -1 ≤ p.y ∧ p.y ≤ 1

instance (p : Vec2) : Decidable (inClosedSquare p) := by
  unfold inClosedSquare; infer_instance

/-- Source `random_position` of the particle vertex shaders: each coordinate is a
`gold_noise` draw (a `fract`, hence in `[0,1)`) mapped by `* 2.0 - 1.0`.
The two noise draws are abstracted as the arguments `n1` and `n2`. -/
def randomPosition (n1 n2 : ℚ) : Vec2 :=
  ⟨n1 * 2 - 1, n2 * 2 - 1⟩

/-- One particle of the age-based propagator: `a_particle_data = (pos, vel)`
together with `a_particle_age`. -/
structure Particle where
  pos : Vec2
  vel : Vec2
  age : ℚ
deriving DecidableEq, Repr

/-- The three `gold_noise` draws consumed by one invocation of the age-based
shader `main`: the two draws of `random_position` and the draw
`gold_noise(pos, 987.65)` used for the respawn age.  Each is a `fract`,
hence lies in `[0, 1)`. -/
structure NoiseDraw where
  posX : ℚ
  posY : ℚ
  ageN : ℚ
deriving DecidableEq, Repr

/-- Source `main` of the age-based particle vertex shader (particle.vert.glsl in
age mode): decide between elimination by age, respawn on the zero-velocity
sentinel, respawn on leaving clip space, and advection, in exactly the order
of the shader's `if`/`else if` chain; then resample the velocity at the new
position.  `get_clip_space_velocity` (texture lookup, sentinel detection,
speed curve and aspect correction) is abstracted as `sampleVel`. -/
def particleMain (sampleVel : Vec2 → Vec2) (maxAge dt : ℚ) (noise : NoiseDraw)
    (p : Particle) : Particle :=
  let newPosAge : Vec2 × ℚ :=
    if p.age > maxAge then
      -- Particles that are too old are reset to a random position and age 0.
      (randomPosition noise.posX noise.posY, 0)
    else if p.vel.x = 0 ∧ p.vel.y = 0 then
      -- Particles in regions without velocity are reset to a random position
      -- and given a random age.
      (randomPosition noise.posX noise.posY, noise.ageN * maxAge)
    else if outOfClipSpace p.pos then
      -- Particles that left clip space are reset to a random position and
      -- age 0.
      (randomPosition noise.posX noise.posY, 0)
    else
      (⟨p.pos.x + p.vel.x * dt, p.pos.y + p.vel.y * dt⟩, p.age + dt)
  { pos := newPosAge.1, vel := sampleVel newPosAge.1, age := newPosAge.2 }

/-- The four per-particle decisions of the age-based propagator. -/
inductive StepDecision
  | eliminate
  | noField
  | outOfBounds
  | advance
deriving DecidableEq, Repr

/-- The decision actually taken by the shader's `if`/`else if` chain, in the
source's order: eliminate (age), then no-field (zero-velocity sentinel),
then out-of-bounds, then advance. -/
def particleDecision (maxAge : ℚ) (p : Particle) : StepDecision :=
  if p.age > maxAge then .eliminate
  else if p.vel.x = 0 ∧ p.vel.y = 0 then .noField
  else if outOfClipSpace p.pos then .outOfBounds
  else .advance

/-- The decision order asserted by the spec: eliminate, then out-of-bounds,
then no-field, then advance.  Stated from the spec's words, to be compared
with `particleDecision`. -/
def specParticleDecision (maxAge : ℚ) (p : Particle) : StepDecision :=
  if p.age > maxAge then .eliminate
  else if outOfClipSpace p.pos then .outOfBounds
  else if p.vel.x = 0 ∧ p.vel.y = 0 then .noField
  else .advance

/-- One particle as seeded by `ParticlePropagator.generateInitialParticleData`
and `generateInitialParticleAges` of the age-based propagator: position
coordinates are `Math.random() * 2 - 1`, the velocity is the near-zero seed
`1e-6` (deliberately not the zero sentinel), and the age is
`Math.random() * maxAge`.  The three uniform draws are abstracted as
`rx`, `ry` and `rAge`, each in `[0, 1)`. -/
def initialParticle (rx ry rAge maxAge : ℚ) : Particle :=
  { pos := ⟨rx * 2 - 1, ry * 2 - 1⟩
    vel := ⟨1 / 1000000, 1 / 1000000⟩
    age := rAge * maxAge }

/-! ### Sub-stepping in `StreamlineVisualiser.renderFrame` -/

/-- Source `Math.min(Math.floor(dt / dtMin), cap)` as evaluated by JavaScript inside
`renderFrame`: dividing a positive `dt` by `dtMin = 0` yields `Infinity`,
whose floor-and-min is the cap. -/
def floorDivCapped (dt dtMin : ℚ) (cap : ℤ) : ℤ :=
  if dtMin = 0 then cap else min ⌊dt / dtMin⌋ cap

/-- The number of substeps computed by `StreamlineVisualiser.renderFrame`:
`needSubstepping = dt > dtMin`; if substepping,
`min(Math.floor(dt / dtMin), MAX_NUM_SUBSTEPS)` with `MAX_NUM_SUBSTEPS = 32`,
else `1`. -/
def numSubSteps (dt dtMin : ℚ) : ℤ :=
  if dt > dtMin then floorDivCapped dt dtMin 32 else 1

/-- The substep size computed by `renderFrame`:
`dtSub = needSubstepping ? dt / numSubSteps : dt`. -/
def dtSub (dt dtMin : ℚ) : ℚ :=
  if dt > dtMin then dt / ((numSubSteps dt dtMin : ℤ) : ℚ) else dt

/-! ### `VelocityImage` of utils/wms.ts -/

/-- The decode parameters of a `VelocityImage` (the pixel data and dimensions
are irrelevant to the claims about `maxVelocity` and are omitted).  As in
`fetchWMSVelocityField`, the stored scales are pre-multiplied by 255, so a
texture value `r ∈ [0,1]` (raw byte over 255) decodes to `r * scale + offset`
in physical units. -/
structure VelocityImage where
  uOffset : ℚ
  vOffset : ℚ
  uScale : ℚ
  vScale : ℚ
deriving DecidableEq, Repr

/-- Source `VelocityImage.maxVelocity` from utils/wms.ts: per axis, the larger of the
decoded values at the two texture extremes 0 and 1 (raw bytes 0 and 255).
The source takes no absolute values. -/
def VelocityImage.maxVelocity (img : VelocityImage) : ℚ × ℚ :=
  let computeU : ℚ → ℚ := fun r => r * img.uScale + img.uOffset
  let computeV : ℚ → ℚ := fun g => g * img.vScale + img.vOffset
  (max (computeU 0) (computeU 1), max (computeV 0) (computeV 1))

/-- The u-axis value claimed by the spec for `maxVelocity`: the supremum of
the absolute physical velocity over the raw extremes.  Stated from the spec's
words, to be compared with `VelocityImage.maxVelocity`. -/
def specMaxVelocityU (img : VelocityImage) : ℚ :=
  max |img.uOffset| |img.uScale + img.uOffset|

/-! ### `SpeedCurve` of utils/speedcurve.ts

`Math.pow` with arbitrary real arguments is modelled by `Real.rpow`
(written `^` on reals); the two agree for positive bases. -/

/-- The `SpeedCurve` class: a curve of the form `factor * speed ^ exponent`,
with `baseFactor` the multiplication factor that would be applied were the
exponent 1. -/
structure SpeedCurve where
  exponent : ℝ
  factor : ℝ
  baseFactor : ℝ

/-- Source `SpeedCurve.fromExponentFactorAndSpeed`:
`transformedSpeed = Math.pow(speed, exponent)`,
`finalFactor = factor * speed / transformedSpeed`,
returns `new SpeedCurve(exponent, finalFactor, factor)`. -/
noncomputable def SpeedCurve.fromExponentFactorAndSpeed
    (exponent factor speed : ℝ) : SpeedCurve :=
  let transformedSpeed := speed ^ exponent
  let finalFactor := factor * speed / transformedSpeed
  { exponent := exponent, factor := finalFactor, baseFactor := factor }

/-- Applying a speed curve to a speed, as the particle vertex shader does in
`get_clip_space_velocity`: `pow(length(velocity), u_speed_exponent)` scaled
by `u_speed_factor`, where the propagator binds `u_speed_factor` and
`u_speed_exponent` to the curve's `factor` and `exponent`. -/
noncomputable def SpeedCurve.transformSpeed (c : SpeedCurve) (speed : ℝ) : ℝ :=
  c.factor * speed ^ c.exponent

/-! ### Fade quantisation in `StreamlineVisualiser.renderFrame` -/

/-- The fade amount handed to `textureRenderer.render` by one substep of
`renderFrame`: `fadeAmount = fadeAmountPerSecond * dtSub`; if it is below
`fadeAmountMin = 1/255` it is stochastically promoted: with the uniform draw
`r = Math.random()`, fade by `1/255` when `r < fadeAmount / fadeAmountMin`,
else by 0. -/
noncomputable def appliedFadeAmount (fadeAmountPerSecond dtStep r : ℝ) : ℝ :=
  let fadeAmount := fadeAmountPerSecond * dtStep
  let fadeAmountMin : ℝ := 1 / 255
  if fadeAmount < fadeAmountMin then
    if r < fadeAmount / fadeAmountMin then fadeAmountMin else 0
  else fadeAmount

/-! ### Age resynchronisation -/

/-- Source `ParticlePropagator.generateInitialParticleAges` (also the payload of
`ParticlePropagator.resetAges`): every particle age is an independent uniform
draw `Math.random()` times `maxAge`.  The draws are abstracted as `draws`. -/
def generateInitialParticleAges (draws : List ℚ) (maxAge : ℚ) : List ℚ :=
  draws.map (fun r => r * maxAge)

/-- Modelled from the spec: the age-based `StreamlineVisualiser.renderFrame`
is not among the sources (only its callee `ParticlePropagator.resetAges` and
the shader it drives are).  Per the spec's step 1, when the visualiser is
rendering and `dt` exceeds 10% of `maxAge`, the particle ages are
force-resynchronised — replaced by `resetAges`, i.e. fresh uniform draws times
`maxAge` — before any substep runs.  This definition gives the age buffer as
seen by the first substep. -/
def renderFrameFirstSubstepAges (isRendering : Bool) (dt maxAge : ℚ)
    (draws ages : List ℚ) : List ℚ :=
  if isRendering ∧ dt > maxAge / 10 then generateInitialParticleAges draws maxAge
  else ages

/-! ### State model of `StreamlineVisualiser` (visualiser.ts)

The visualiser and its sub-renderers are modelled as records of the fields
their TypeScript classes hold; WebGL handles (textures, buffers, programs)
are modelled by the data used to create them.  A method is a function from
state to `state × Option VisError`: JavaScript exceptions leave mutations
made before the `throw` in place, so every method returns the state as it is
when the method finishes or throws. -/

/-- The distinct errors thrown on the paths modelled here. -/
inductive VisError
  | notInitialised
  | propagatorNotInitialised
  | noVelocityTexture
deriving DecidableEq, Repr

/-- Source `BoundingBoxScaling` of render/final.ts. -/
structure Scaling where
  scaleX : ℚ
  scaleY : ℚ
  offsetX : ℚ
  offsetY : ℚ
deriving DecidableEq, Repr

/-- Source `StreamlineVisualiserOptions` (visualiser.ts).  `style` is the
`StreamlineStyle` enum value. -/
structure VisOptions where
  style : ℕ
  numEliminatePerSecond : ℚ
  particleSize : ℚ
  speedFactor : ℚ
  fadeAmountPerSecond : ℚ
  maxDisplacement : ℚ
  speedExponent : Option ℚ
  particleColor : Option String
deriving DecidableEq, Repr

/-- A `Partial<StreamlineVisualiserOptions>` as accepted by
`updateOptions`. -/
structure VisOptionsPatch where
  style : Option ℕ
  numEliminatePerSecond : Option ℚ
  particleSize : Option ℚ
  speedFactor : Option ℚ
  fadeAmountPerSecond : Option ℚ
  maxDisplacement : Option ℚ
  speedExponent : Option (Option ℚ)
  particleColor : Option (Option String)
deriving DecidableEq, Repr

/-- The object spread `{ ...options, ...patch }` of `updateOptions`. -/
def mergeOptions (opts : VisOptions) (patch : VisOptionsPatch) : VisOptions :=
  { style := patch.style.getD opts.style
    numEliminatePerSecond := patch.numEliminatePerSecond.getD opts.numEliminatePerSecond
    particleSize := patch.particleSize.getD opts.particleSize
    speedFactor := patch.speedFactor.getD opts.speedFactor
    fadeAmountPerSecond := patch.fadeAmountPerSecond.getD opts.fadeAmountPerSecond
    maxDisplacement := patch.maxDisplacement.getD opts.maxDisplacement
    speedExponent := patch.speedExponent.getD opts.speedExponent
    particleColor := patch.particleColor.getD opts.particleColor }

/-- A colormap, reduced to the fields the visualiser reads (`colormap.end`
feeds the speed curve; `start`/`end` feed the final renderer). -/
structure ColormapQ where
  startValue : ℚ
  endValue : ℚ
deriving DecidableEq, Repr

/-- The arguments `StreamlineVisualiser.computeSpeedCurve` passes to
`SpeedCurve.fromExponentFactorAndSpeed`:
`(options.speedExponent ?? 1.0, options.speedFactor, colormap.end)`.
The propagator's stored curve is tracked by these construction parameters;
the real-valued curve itself is `SpeedCurve.fromExponentFactorAndSpeed`. -/
structure SpeedCurveParams where
  exponentArg : ℚ
  factorArg : ℚ
  speedArg : ℚ
deriving DecidableEq, Repr

/-- Source `StreamlineVisualiser.computeSpeedCurve`, as construction parameters. -/
def computeSpeedCurveParams (colormap : ColormapQ) (opts : VisOptions) :
    SpeedCurveParams :=
  { exponentArg := opts.speedExponent.getD 1
    factorArg := opts.speedFactor
    speedArg := colormap.endValue }

/-- A texture created by `createZeroTexture`: a zero-initialised RGBA texture
of the visualiser's current dimensions. -/
structure ZeroTexture where
  texWidth : ℚ
  texHeight : ℚ
deriving DecidableEq, Repr

/-- The `ParticlePropagator` of render/propagator.ts (elimination-based, as
constructed by this visualiser).  Buffers are modelled by the number of
particles they were allocated for. -/
structure PropagatorState where
  widthP : ℚ
  heightP : ℚ
  numParticlesP : ℕ
  numParticlesAllocateP : ℕ
  numEliminatePerSecondP : ℚ
  speedCurveP : SpeedCurveParams
  velocityImageP : Option VelocityImage
  velocityTextureP : Option VelocityImage
  inputBufferP : Option ℕ
  outputBufferP : Option ℕ
deriving DecidableEq, Repr

/-- Source `ParticlePropagator.setDimensions`. -/
def PropagatorState.setDimensions (p : PropagatorState) (w h : ℚ) :
    PropagatorState :=
  { p with widthP := w, heightP := h }

/-- Source `ParticlePropagator.setVelocityImage`: stores the image and uploads it as
the velocity texture. -/
def PropagatorState.setVelocityImage (p : PropagatorState)
    (img : VelocityImage) : PropagatorState :=
  { p with velocityImageP := some img, velocityTextureP := some img }

/-- Source `ParticlePropagator.setNumParticles`: stores the counts and rebuilds both
particle buffers (`resetBuffers` plus the parity `swapBuffers`). -/
def PropagatorState.setNumParticles (p : PropagatorState)
    (n nAllocate : ℕ) : PropagatorState :=
  { p with numParticlesP := n, numParticlesAllocateP := nAllocate
           inputBufferP := some nAllocate, outputBufferP := some nAllocate }

/-- Source `ParticlePropagator.setSpeedCurve`. -/
def PropagatorState.setSpeedCurve (p : PropagatorState)
    (curve : SpeedCurveParams) : PropagatorState :=
  { p with speedCurveP := curve }

/-- Source `ParticlePropagator.swapBuffers`. -/
def PropagatorState.swapBuffers (p : PropagatorState) : PropagatorState :=
  { p with inputBufferP := p.outputBufferP, outputBufferP := p.inputBufferP }

/-- Source `ParticlePropagator.update`: throws if a buffer is missing, then throws if
no velocity texture is set, then swaps the buffers and runs the capture pass
(whose GPU effect is not part of this state). -/
def PropagatorState.update (p : PropagatorState) :
    PropagatorState × Option VisError :=
  if p.inputBufferP = none ∨ p.outputBufferP = none then
    (p, some .propagatorNotInitialised)
  else if p.velocityTextureP = none then
    (p, some .noVelocityTexture)
  else
    (p.swapBuffers, none)

/-- The `ParticleRenderer`, reduced to the fields the visualiser mutates. -/
structure RendererState where
  widthR : ℚ
  heightR : ℚ
  numParticlesR : ℕ
  particleSizeR : ℚ
deriving DecidableEq, Repr

/-- The `FinalRenderer`, reduced to the fields the visualiser mutates. -/
structure FinalState where
  styleF : ℕ
  colorMapF : ColormapQ
  velocityImageF : Option VelocityImage
deriving DecidableEq, Repr

/-- The fields of a `StreamlineVisualiser` instance. -/
structure VisState where
  widthV : ℚ
  heightV : ℚ
  isRendering : Bool
  numParticlesV : ℕ
  particleTextureSizeV : ℕ
  optionsV : VisOptions
  textureRendererV : Option Unit
  particlePropagatorV : Option PropagatorState
  particleRendererV : Option RendererState
  finalRendererV : Option FinalState
  scalingV : Scaling
  previousParticleTextureV : Option ZeroTexture
  currentParticleTextureV : Option ZeroTexture
  velocityImageV : Option VelocityImage
  colorMapV : Option ColormapQ
  dtMinV : ℚ
deriving DecidableEq, Repr

/-- The `StreamlineVisualiser` constructor: every renderer and texture is
null, rendering is off, scaling is the identity, `dtMin` is 0. -/
def mkVisualiser (w h : ℚ) (numParticles particleTextureSize : ℕ)
    (opts : VisOptions) : VisState :=
  { widthV := w, heightV := h, isRendering := false
    numParticlesV := numParticles
    particleTextureSizeV := particleTextureSize
    optionsV := opts
    textureRendererV := none, particlePropagatorV := none
    particleRendererV := none, finalRendererV := none
    scalingV := ⟨1, 1, 0, 0⟩
    previousParticleTextureV := none, currentParticleTextureV := none
    velocityImageV := none, colorMapV := none, dtMinV := 0 }

/-- Source `Math.ceil(Math.sqrt(n))` on a natural number. -/
def ceilSqrt (n : ℕ) : ℕ :=
  if Nat.sqrt n * Nat.sqrt n = n then Nat.sqrt n else Nat.sqrt n + 1

/-- The getter `widthParticleDataTexture` (the height getter returns the same
value). -/
def VisState.widthParticleDataTexture (s : VisState) : ℕ :=
  ceilSqrt s.numParticlesV

/-- The getter `numParticlesAllocate`. -/
def VisState.numParticlesAllocate (s : VisState) : ℕ :=
  s.widthParticleDataTexture * s.widthParticleDataTexture

/-- The getter `isInitialised`: propagator, particle renderer and final
renderer all non-null. -/
def VisState.isInitialised (s : VisState) : Bool :=
  s.particlePropagatorV.isSome && s.particleRendererV.isSome
    && s.finalRendererV.isSome

/-- Source `createZeroTexture` at the visualiser's current dimensions. -/
def VisState.createZeroTexture (s : VisState) : ZeroTexture :=
  ⟨s.widthV, s.heightV⟩

/-- Source `resetParticleTexture`: replaces both particle trail textures with fresh
zero textures (the optional chain into the texture renderer carries no state
modelled here). -/
def VisState.resetParticleTexture (s : VisState) : VisState :=
  { s with previousParticleTextureV := some s.createZeroTexture
           currentParticleTextureV := some s.createZeroTexture }

/-- Source `computeMinimumTimeStep` for a set velocity image.  Mirrors the source:
maximum displacement converted from pixels to clip units, maximum velocity
scaled like the propagator shader scales it, and the minimum of the two
axis-wise time steps.  (Rational division by zero yields 0 here, where
JavaScript would give Infinity; no claim depends on that corner.) -/
def computeMinimumTimeStepQ (img : VelocityImage) (w h : ℚ)
    (opts : VisOptions) : ℚ :=
  let maxDisplacementX := opts.maxDisplacement / w * 2
  let maxDisplacementY := opts.maxDisplacement / h * 2
  let maxU := img.maxVelocity.1 * ((h / w) * opts.speedFactor)
  let maxV := img.maxVelocity.2 * opts.speedFactor
  min (maxDisplacementX / maxU) (maxDisplacementY / maxV)

/-- Source `StreamlineVisualiser.start`: throws for an uninitialised visualiser,
else turns rendering on. -/
def VisState.start (s : VisState) : VisState × Option VisError :=
  if ¬s.isInitialised then (s, some .notInitialised)
  else ({ s with isRendering := true }, none)

/-- Source `StreamlineVisualiser.stop`. -/
def VisState.stop (s : VisState) : VisState × Option VisError :=
  ({ s with isRendering := false }, none)

/-- Source `StreamlineVisualiser.setScaling`: sets the scaling unconditionally — the
source has no initialisation guard here. -/
def VisState.setScaling (s : VisState) (scaling : Scaling) :
    VisState × Option VisError :=
  ({ s with scalingV := scaling }, none)

/-- Source `StreamlineVisualiser.setDimensions`. -/
def VisState.setDimensions (s : VisState) (w h : ℚ) :
    VisState × Option VisError :=
  if s.particlePropagatorV = none ∨ s.particleRendererV = none then
    (s, some .notInitialised)
  else if s.widthV = w ∧ s.heightV = h then (s, none)
  else
    let s1 := { s with widthV := w, heightV := h }
    let s2 := { s1 with
      previousParticleTextureV := some s1.createZeroTexture
      currentParticleTextureV := some s1.createZeroTexture
      particlePropagatorV := s1.particlePropagatorV.map
        (fun p : PropagatorState => p.setDimensions w h)
      particleRendererV := s1.particleRendererV.map
        (fun r : RendererState => { r with widthR := w, heightR := h }) }
    match s2.velocityImageV with
    | some img =>
        ({ s2 with dtMinV := computeMinimumTimeStepQ img w h s2.optionsV },
          none)
    | none => (s2, none)

/-- Source `StreamlineVisualiser.setNumParticles`. -/
def VisState.setNumParticles (s : VisState) (numParticles : ℕ) :
    VisState × Option VisError :=
  if s.particlePropagatorV = none ∨ s.particleRendererV = none then
    (s, some .notInitialised)
  else if s.numParticlesV = numParticles then (s, none)
  else
    let s1 := s.resetParticleTexture
    let s2 := { s1 with numParticlesV := numParticles }
    (({ s2 with
        particlePropagatorV := s2.particlePropagatorV.map
          (fun p => p.setNumParticles numParticles s2.numParticlesAllocate)
        particleRendererV := s2.particleRendererV.map
          (fun r => { r with numParticlesR := numParticles }) }), none)

/-- Source `StreamlineVisualiser.setColorMap`. -/
def VisState.setColorMap (s : VisState) (colorMap : ColormapQ) :
    VisState × Option VisError :=
  if s.finalRendererV = none ∨ s.particlePropagatorV = none then
    (s, some .notInitialised)
  else
    let curve := computeSpeedCurveParams colorMap s.optionsV
    (({ s with
        colorMapV := some colorMap
        finalRendererV := s.finalRendererV.map
          (fun f => { f with colorMapF := colorMap })
        particlePropagatorV := s.particlePropagatorV.map
          (fun p => p.setSpeedCurve curve) }), none)

/-- The private `updateVelocityImage`: throws for an uninitialised
visualiser, else stores the image everywhere and recomputes `dtMin`. -/
def VisState.updateVelocityImage (s : VisState) (img : VelocityImage) :
    VisState × Option VisError :=
  if s.particlePropagatorV = none ∨ s.finalRendererV = none then
    (s, some .notInitialised)
  else
    (({ s with
        velocityImageV := some img
        particlePropagatorV := s.particlePropagatorV.map
          (fun p => p.setVelocityImage img)
        finalRendererV := s.finalRendererV.map
          (fun f => { f with velocityImageF := some img })
        dtMinV := computeMinimumTimeStepQ img s.widthV s.heightV s.optionsV }),
      none)

/-- Source `StreamlineVisualiser.setVelocityImage`: optionally resets the particle
trail textures first (this mutation survives a subsequent throw), then
delegates to `updateVelocityImage`. -/
def VisState.setVelocityImage (s : VisState) (img : VelocityImage)
    (doResetParticles : Bool) : VisState × Option VisError :=
  let s1 := if doResetParticles then s.resetParticleTexture else s
  s1.updateVelocityImage img

/-- Source `StreamlineVisualiser.updateOptions`: guards on the colormap and all
renderers, merges the partial options, recomputes `dtMin` when a velocity
image is present, pushes the new elimination rate and speed curve into the
propagator, the particle size into the renderer and the style into the final
renderer. -/
def VisState.updateOptions (s : VisState) (patch : VisOptionsPatch) :
    VisState × Option VisError :=
  match s.colorMapV with
  | none => (s, some .notInitialised)
  | some colorMap =>
    if s.particlePropagatorV = none ∨ s.particleRendererV = none
        ∨ s.finalRendererV = none then
      (s, some .notInitialised)
    else
      let merged := mergeOptions s.optionsV patch
      let s1 := { s with optionsV := merged }
      let s2 :=
        match s1.velocityImageV with
        | some img =>
            { s1 with dtMinV :=
                computeMinimumTimeStepQ img s1.widthV s1.heightV merged }
        | none => s1
      let curve := computeSpeedCurveParams colorMap merged
      (({ s2 with
          particlePropagatorV := s2.particlePropagatorV.map
            (fun p => ({ p with
              numEliminatePerSecondP := merged.numEliminatePerSecond
              }).setSpeedCurve curve)
          particleRendererV := s2.particleRendererV.map
            (fun r => { r with particleSizeR := merged.particleSize })
          finalRendererV := s2.finalRendererV.map
            (fun f => { f with styleF := merged.style }) }), none)

/-- Source `swapParticleTextures` (the texture renderer's frame-buffer swap carries
no state modelled here). -/
def VisState.swapParticleTextures (s : VisState) : VisState :=
  { s with previousParticleTextureV := s.currentParticleTextureV
           currentParticleTextureV := s.previousParticleTextureV }

/-- Source `StreamlineVisualiser.renderFrame`: returns immediately when not
rendering; then throws `notInitialised` if any renderer or trail texture is
null; then runs `numSubSteps` substeps.  Each substep calls
`particlePropagator.update` (which throws before mutating anything if its
buffers or velocity texture are missing) and swaps the trail textures, except
that the swap after the final substep happens only after compositing. -/
def VisState.renderFrame (s : VisState) (dt : ℚ) :
    VisState × Option VisError :=
  if ¬s.isRendering then (s, none)
  else
    match s.particlePropagatorV with
    | none => (s, some .notInitialised)
    | some prop =>
      if s.textureRendererV = none ∨ s.particleRendererV = none
          ∨ s.finalRendererV = none ∨ s.previousParticleTextureV = none
          ∨ s.currentParticleTextureV = none then
        (s, some .notInitialised)
      else if prop.inputBufferP = none ∨ prop.outputBufferP = none then
        (s, some .propagatorNotInitialised)
      else if prop.velocityTextureP = none then
        (s, some .noVelocityTexture)
      else
        let n := (numSubSteps dt s.dtMinV).toNat
        -- Over the whole call the propagator swaps its buffers once per
        -- substep, and the trail textures swap once per substep as well
        -- ((n - 1) times inside the loop plus once after compositing).
        let newProp := if n % 2 = 1 then prop.swapBuffers else prop
        let s1 := { s with particlePropagatorV := some newProp }
        (if n % 2 = 1 then s1.swapParticleTextures else s1, none)

/-! ## Theorems -/

/-- C1, counterexample: a particle that is both outside `[-1,1]^2` and
carries the zero-velocity sentinel (with age within `maxAge`) takes the
no-field branch, not the out-of-bounds branch, and receives the random age
`gold_noise * maxAge` — here `1/2`, not `0` as the claim requires. -/
theorem C1_counterexample :
    particleDecision 1 ⟨⟨2, 0⟩, ⟨0, 0⟩, 0⟩ = .noField
    ∧ specParticleDecision 1 ⟨⟨2, 0⟩, ⟨0, 0⟩, 0⟩ = .outOfBounds
    ∧ (particleMain (fun _ => ⟨0, 0⟩) 1 1 ⟨1/4, 1/4, 1/2⟩
        ⟨⟨2, 0⟩, ⟨0, 0⟩, 0⟩).age = 1/2
    ∧ (1 : ℚ)/2 ≠ 0 := by
  refine ⟨?_, ?_, ?_, by norm_num⟩
  · norm_num [particleDecision, outOfClipSpace]
  · norm_num [specParticleDecision, outOfClipSpace]
  · norm_num [particleMain, outOfClipSpace]

/-- C1, amended: the age-based propagator evaluates the per-particle decision
in the priority order Eliminate (`age > maxAge`, respawn with age 0), then
No-field (zero-velocity sentinel, respawn with a random age in
`[0, maxAge)`), then Out-of-bounds (respawn with age 0), then Advance; in
particular a particle that is out of bounds and carries the zero-velocity
sentinel respawns with the random age `noise * maxAge`, not 0. -/
theorem C1_amended (sampleVel : Vec2 → Vec2) (maxAge dt : ℚ)
    (noise : NoiseDraw) (p : Particle) :
    (particleDecision maxAge p = .eliminate ↔ maxAge < p.age)
    ∧ (particleDecision maxAge p = .noField ↔
        p.age ≤ maxAge ∧ p.vel.x = 0 ∧ p.vel.y = 0)
    ∧ (particleDecision maxAge p = .outOfBounds ↔
        p.age ≤ maxAge ∧ ¬(p.vel.x = 0 ∧ p.vel.y = 0)
          ∧ outOfClipSpace p.pos = true)
    ∧ (particleDecision maxAge p = .advance ↔
        p.age ≤ maxAge ∧ ¬(p.vel.x = 0 ∧ p.vel.y = 0)
          ∧ outOfClipSpace p.pos = false)
    ∧ ((particleMain sampleVel maxAge dt noise p).pos =
        match particleDecision maxAge p with
        | .advance => ⟨p.pos.x + p.vel.x * dt, p.pos.y + p.vel.y * dt⟩
        | _ => randomPosition noise.posX noise.posY)
    ∧ ((particleMain sampleVel maxAge dt noise p).age =
        match particleDecision maxAge p with
        | .eliminate => 0
        | .noField => noise.ageN * maxAge
        | .outOfBounds => 0
        | .advance => p.age + dt)
    ∧ (outOfClipSpace p.pos = true → p.vel.x = 0 → p.vel.y = 0 →
        p.age ≤ maxAge →
        (particleMain sampleVel maxAge dt noise p).age = noise.ageN * maxAge)
    := by
  by_cases h1 : maxAge < p.age
  · simp [particleDecision, particleMain, h1, not_le.mpr h1]
  · push_neg at h1
    by_cases h2 : p.vel.x = 0 ∧ p.vel.y = 0
    · simp [particleDecision, particleMain, h1, not_lt.mpr h1, h2]
    · by_cases h3 : outOfClipSpace p.pos
      · simp [particleDecision, particleMain, h1, not_lt.mpr h1, h2, h3]
        tauto
      · simp only [Bool.not_eq_true] at h3
        simp [particleDecision, particleMain, h1, not_lt.mpr h1, h2, h3]

/-- C1, witness for the amended theorem: an out-of-bounds particle with the
zero sentinel velocity and age within `maxAge` respawns with the random age
`noise * maxAge = 1/3 * 2`. -/
theorem C1_amended_witness :
    outOfClipSpace (⟨3, 3⟩ : Vec2) = true
    ∧ (particleMain (fun _ => ⟨0, 0⟩) 2 1 ⟨1/5, 2/5, 1/3⟩
        ⟨⟨3, 3⟩, ⟨0, 0⟩, 1/4⟩).age = 1/3 * 2 :=
  ⟨by decide,
    (C1_amended (fun _ => ⟨0, 0⟩) 2 1 ⟨1/5, 2/5, 1/3⟩
      ⟨⟨3, 3⟩, ⟨0, 0⟩, 1/4⟩).2.2.2.2.2.2 (by decide) (by decide) (by decide)
      (by norm_num)⟩

/-- C4: one age-based update never writes an age above `maxAge + dt`; the
eliminate branch writes 0, the no-field branch writes a random value in
`[0, maxAge)`, the out-of-bounds branch writes 0, and the advance branch
(reachable only when the input age is at most `maxAge`) writes `age + dt`. -/
theorem C4_age_bound (sampleVel : Vec2 → Vec2) (maxAge dt : ℚ)
    (noise : NoiseDraw) (p : Particle)
    (hage : 0 ≤ p.age) (hdt : 0 ≤ dt) (hmax : 0 ≤ maxAge)
    (hn0 : 0 ≤ noise.ageN) (hn1 : noise.ageN < 1) :
    (particleMain sampleVel maxAge dt noise p).age ≤ maxAge + dt
    ∧ (maxAge < p.age → (particleMain sampleVel maxAge dt noise p).age = 0)
    ∧ (p.age ≤ maxAge → p.vel.x = 0 → p.vel.y = 0 →
        (particleMain sampleVel maxAge dt noise p).age = noise.ageN * maxAge
        ∧ (0 < maxAge →
            0 ≤ noise.ageN * maxAge ∧ noise.ageN * maxAge < maxAge))
    ∧ (p.age ≤ maxAge → ¬(p.vel.x = 0 ∧ p.vel.y = 0) →
        outOfClipSpace p.pos = true →
        (particleMain sampleVel maxAge dt noise p).age = 0)
    ∧ (p.age ≤ maxAge → ¬(p.vel.x = 0 ∧ p.vel.y = 0) →
        outOfClipSpace p.pos = false →
        (particleMain sampleVel maxAge dt noise p).age = p.age + dt) := by
  have hsimp : (particleMain sampleVel maxAge dt noise p).age =
      if p.age > maxAge then 0
      else if p.vel.x = 0 ∧ p.vel.y = 0 then noise.ageN * maxAge
      else if outOfClipSpace p.pos then 0
      else p.age + dt := by
    simp only [particleMain]
    split_ifs <;> rfl
  refine ⟨?_, ?_, ?_, ?_, ?_⟩
  · rw [hsimp]
    split_ifs with a b c
    · linarith
    · nlinarith
    · linarith
    · have := not_lt.mp a
      linarith
  · intro h
    rw [hsimp, if_pos h]
  · intro hle hx hy
    rw [hsimp, if_neg (not_lt.mpr hle), if_pos ⟨hx, hy⟩]
    refine ⟨rfl, fun hm => ⟨by positivity, by nlinarith⟩⟩
  · intro hle hnv hoob
    have hoob' : outOfClipSpace p.pos := hoob
    rw [hsimp, if_neg (not_lt.mpr hle), if_neg hnv, if_pos hoob']
  · intro hle hnv hoob
    have hoob' : ¬(outOfClipSpace p.pos = true) := by simp [hoob]
    rw [hsimp, if_neg (not_lt.mpr hle), if_neg hnv, if_neg hoob']

/-- C4, witness: an advancing particle with age 1/4 and `dt = 1/2` ends with
age `1/4 + 1/2`, within the bound `1 + 1/2`. -/
theorem C4_age_bound_witness :
    (0 : ℚ) ≤ 1/4 ∧ (0 : ℚ) ≤ 1/2 ∧ (0 : ℚ) ≤ 1
    ∧ (particleMain (fun _ => ⟨0, 0⟩) 1 (1/2) ⟨0, 0, 1/2⟩
        ⟨⟨0, 0⟩, ⟨1, 0⟩, 1/4⟩).age ≤ 1 + 1/2 :=
  ⟨by norm_num, by norm_num, by norm_num,
    (C4_age_bound (fun _ => ⟨0, 0⟩) 1 (1/2) ⟨0, 0, 1/2⟩
      ⟨⟨0, 0⟩, ⟨1, 0⟩, 1/4⟩ (by norm_num) (by norm_num) (by norm_num)
      (by norm_num) (by norm_num)).1⟩

/-- C5, counterexample: starting from a seeded particle at `x = 0.9` in a
uniform rightward field, the advance branch of the second update writes the
position `x ≈ 1.4` outside `[-1,1]^2` — the written position is only
respawned on the following step. -/
theorem C5_counterexample :
    ¬ inClosedSquare
      ((particleMain (fun _ => ⟨1, 0⟩) 1 (1/2) ⟨0, 0, 0⟩
        (particleMain (fun _ => ⟨1, 0⟩) 1 (1/2) ⟨0, 0, 0⟩
          (initialParticle (19/20) (1/2) 0 1))).pos) := by
  norm_num [particleMain, initialParticle, outOfClipSpace, inClosedSquare]

/-- C5, amended: a particle whose stored position lies outside `[-1,1]^2` is
never advanced further; the update respawns it at the random position
`(2 n1 - 1, 2 n2 - 1)`, which lies in `[-1,1)^2 ⊆ [-1,1]^2`, so a stored
position can remain outside clip space for at most one step. -/
theorem C5_amended (sampleVel : Vec2 → Vec2) (maxAge dt : ℚ)
    (noise : NoiseDraw) (p : Particle)
    (hoob : outOfClipSpace p.pos = true)
    (h1 : 0 ≤ noise.posX) (h2 : noise.posX < 1)
    (h3 : 0 ≤ noise.posY) (h4 : noise.posY < 1) :
    (particleMain sampleVel maxAge dt noise p).pos =
      randomPosition noise.posX noise.posY
    ∧ -1 ≤ (particleMain sampleVel maxAge dt noise p).pos.x
    ∧ (particleMain sampleVel maxAge dt noise p).pos.x < 1
    ∧ -1 ≤ (particleMain sampleVel maxAge dt noise p).pos.y
    ∧ (particleMain sampleVel maxAge dt noise p).pos.y < 1
    ∧ inClosedSquare (particleMain sampleVel maxAge dt noise p).pos := by
  have hpos : (particleMain sampleVel maxAge dt noise p).pos =
      randomPosition noise.posX noise.posY := by
    by_cases ha : maxAge < p.age
    · simp [particleMain, ha]
    · by_cases hv : p.vel.x = 0 ∧ p.vel.y = 0
      · simp [particleMain, not_lt.mpr (not_lt.mp ha), hv]
      · simp [particleMain, not_lt.mpr (not_lt.mp ha), hv, hoob]
  rw [hpos]
  unfold randomPosition inClosedSquare
  dsimp only
  refine ⟨rfl, by linarith, by linarith, by linarith, by linarith,
    by linarith, by linarith, by linarith, by linarith⟩

/-- C5, witness for the amended theorem: a concrete out-of-bounds particle is
respawned to `(-1/2, -1/3)`, inside the square. -/
theorem C5_amended_witness :
    outOfClipSpace (⟨2, 0⟩ : Vec2) = true
    ∧ inClosedSquare
      ((particleMain (fun _ => ⟨0, 0⟩) 1 1 ⟨1/4, 1/3, 0⟩
        ⟨⟨2, 0⟩, ⟨1, 1⟩, 0⟩).pos) :=
  ⟨by decide,
    (C5_amended (fun _ => ⟨0, 0⟩) 1 1 ⟨1/4, 1/3, 0⟩ ⟨⟨2, 0⟩, ⟨1, 1⟩, 0⟩
      (by decide) (by norm_num) (by norm_num) (by norm_num)
      (by norm_num)).2.2.2.2.2⟩

/-- C2: for `dt > 0` and `dtMin ≥ 0` the substep count lies in `[1, 32]`,
equals `min(floor(dt/dtMin), 32)` whenever `dt > dtMin` (with the JavaScript
division-by-zero convention when `dtMin = 0`, where the count is the cap 32),
and `numSubSteps * dtSub` recovers `dt` exactly in rational arithmetic. -/
theorem C2_substepping (dt dtMin : ℚ) (hdt : 0 < dt) (hmin : 0 ≤ dtMin) :
    1 ≤ numSubSteps dt dtMin ∧ numSubSteps dt dtMin ≤ 32
    ∧ (dt > dtMin → dtMin ≠ 0 →
        numSubSteps dt dtMin = min ⌊dt / dtMin⌋ 32)
    ∧ (dt > dtMin → dtMin = 0 → numSubSteps dt dtMin = 32)
    ∧ (numSubSteps dt dtMin : ℚ) * dtSub dt dtMin = dt := by
  by_cases h : dt > dtMin
  · by_cases h0 : dtMin = 0
    · have hn : numSubSteps dt dtMin = 32 := by
        simp [numSubSteps, floorDivCapped, h, h0, hdt]
      refine ⟨by rw [hn]; norm_num, le_of_eq hn, fun _ hne => absurd h0 hne,
        fun _ _ => hn, ?_⟩
      rw [dtSub, if_pos h, hn]
      push_cast
      field_simp
    · have hpos : 0 < dtMin := lt_of_le_of_ne hmin (Ne.symm h0)
      have hq : 1 ≤ dt / dtMin := by
        rw [le_div_iff hpos]
        linarith
      have hfl : 1 ≤ ⌊dt / dtMin⌋ := by
        exact_mod_cast Int.le_floor.mpr (by exact_mod_cast hq)
      have hn : numSubSteps dt dtMin = min ⌊dt / dtMin⌋ 32 := by
        simp [numSubSteps, floorDivCapped, h, h0]
      have h1 : 1 ≤ numSubSteps dt dtMin := by
        rw [hn]
        exact le_min hfl (by norm_num)
      refine ⟨h1, by rw [hn]; exact min_le_right _ _, fun _ _ => hn,
        fun _ hz => absurd hz h0, ?_⟩
      have hne : ((numSubSteps dt dtMin : ℤ) : ℚ) ≠ 0 := by
        have : (0 : ℤ) < numSubSteps dt dtMin := by omega
        exact_mod_cast this.ne'
      rw [dtSub, if_pos h]
      field_simp
  · have hn : numSubSteps dt dtMin = 1 := by simp [numSubSteps, h]
    refine ⟨by rw [hn], by rw [hn]; norm_num, fun hc _ => absurd hc h,
      fun hc _ => absurd hc h, ?_⟩
    rw [dtSub, if_neg h, hn]
    norm_num

/-- C2, witness: `dt = 1`, `dtMin = 1/3` gives three substeps of size `1/3`,
whose product with the count recovers `dt`. -/
theorem C2_substepping_witness :
    numSubSteps 1 (1/3) ≤ 32
    ∧ (numSubSteps 1 (1/3) : ℚ) * dtSub 1 (1/3) = 1 :=
  ⟨(C2_substepping 1 (1/3) (by norm_num) (by norm_num)).2.1,
    (C2_substepping 1 (1/3) (by norm_num) (by norm_num)).2.2.2.2⟩

/-- C3: `SpeedCurve.fromExponentFactorAndSpeed` keeps the given factor as
`baseFactor`, stores `factor * speed / speed ^ exponent` as the curve factor,
and therefore transforms the reference speed to exactly
`factor * speed`, for any positive reference speed. -/
theorem C3_speed_curve (exponent factor speed : ℝ) (h : 0 < speed) :
    (SpeedCurve.fromExponentFactorAndSpeed exponent factor speed).baseFactor
      = factor
    ∧ (SpeedCurve.fromExponentFactorAndSpeed exponent factor speed).factor
      = factor * speed / speed ^ exponent
    ∧ (SpeedCurve.fromExponentFactorAndSpeed
        exponent factor speed).transformSpeed speed = factor * speed := by
  have hpow : speed ^ exponent ≠ 0 := (Real.rpow_pos_of_pos h exponent).ne'
  refine ⟨rfl, rfl, ?_⟩
  simp only [SpeedCurve.fromExponentFactorAndSpeed, SpeedCurve.transformSpeed]
  exact div_mul_cancel₀ _ hpow

/-- C3, witness: exponent 2, factor 3 and reference speed 2 give a curve that
transforms the reference speed 2 into `3 * 2`. -/
theorem C3_speed_curve_witness :
    (0 : ℝ) < 2
    ∧ (SpeedCurve.fromExponentFactorAndSpeed 2 3 2).transformSpeed 2
      = 3 * 2 :=
  ⟨by norm_num, (C3_speed_curve 2 3 2 (by norm_num)).2.2⟩

/-- C7, counterexample: for decode parameters `uOffset = 0`, `uScale = -2`
the u velocities range over `[-2, 0]`, with supremum of the absolute value 2;
`maxVelocity` (which takes no absolute values) returns 0 instead. -/
theorem C7_counterexample :
    (VelocityImage.maxVelocity ⟨0, 0, -2, 1⟩).1 = 0
    ∧ specMaxVelocityU ⟨0, 0, -2, 1⟩ = 2
    ∧ (0 : ℚ) ≠ 2 := by
  refine ⟨?_, ?_, by norm_num⟩
  · norm_num [VelocityImage.maxVelocity, max_def]
  · have habs : |(-2 : ℚ) + 0| = 2 := by
      rw [add_zero, abs_neg]
      norm_num
    norm_num [specMaxVelocityU, max_def, habs]

/-- C7, amended: `maxVelocity` returns per axis the larger of the two signed
decoded velocities at the texture extremes 0 and 1 (raw bytes 0 and 255),
without absolute values; by linearity this is still an upper bound on the
signed decoded velocity for every texture value in `[0, 1]`. -/
theorem C7_amended (img : VelocityImage) (r : ℚ) (h0 : 0 ≤ r) (h1 : r ≤ 1) :
    img.maxVelocity.1 = max img.uOffset (img.uScale + img.uOffset)
    ∧ img.maxVelocity.2 = max img.vOffset (img.vScale + img.vOffset)
    ∧ r * img.uScale + img.uOffset ≤ img.maxVelocity.1
    ∧ r * img.vScale + img.vOffset ≤ img.maxVelocity.2 := by
  have key : ∀ s o : ℚ, r * s + o ≤ max o (s + o) := by
    intro s o
    rcases le_or_lt 0 s with hs | hs
    · exact le_trans (by nlinarith) (le_max_right _ _)
    · exact le_trans (by nlinarith) (le_max_left _ _)
  have e1 : img.maxVelocity.1 = max img.uOffset (img.uScale + img.uOffset) :=
    by simp [VelocityImage.maxVelocity]
  have e2 : img.maxVelocity.2 = max img.vOffset (img.vScale + img.vOffset) :=
    by simp [VelocityImage.maxVelocity]
  exact ⟨e1, e2, by rw [e1]; exact key _ _, by rw [e2]; exact key _ _⟩

/-- C7, witness for the amended theorem: a mid-range texture value is bounded
by `maxVelocity` on the u axis for concrete decode parameters. -/
theorem C7_amended_witness :
    (0 : ℚ) ≤ 1/2 ∧ (1 : ℚ)/2 ≤ 1
    ∧ (1/2) * (3 : ℚ) + 1 ≤ (VelocityImage.maxVelocity ⟨1, 2, 3, 4⟩).1 :=
  ⟨by norm_num, by norm_num,
    (C7_amended ⟨1, 2, 3, 4⟩ (1/2) (by norm_num) (by norm_num)).2.2.1⟩

/-- C8: when the rendering visualiser receives a frame time `dt` larger than
10% of `maxAge`, the age buffer seen by the first substep is the
resynchronised one — fresh uniform draws scaled by `maxAge`, hence (for
draws in `[0,1)` and positive `maxAge`) ages spread over `[0, maxAge)`. -/
theorem C8_age_resync (dt maxAge : ℚ) (draws ages : List ℚ)
    (h : dt > maxAge / 10) :
    renderFrameFirstSubstepAges true dt maxAge draws ages
      = generateInitialParticleAges draws maxAge
    ∧ ((∀ r ∈ draws, 0 ≤ r ∧ r < 1) → 0 < maxAge →
        ∀ a ∈ renderFrameFirstSubstepAges true dt maxAge draws ages,
          0 ≤ a ∧ a < maxAge) := by
  have he : renderFrameFirstSubstepAges true dt maxAge draws ages
      = generateInitialParticleAges draws maxAge := by
    simp [renderFrameFirstSubstepAges, h]
  refine ⟨he, ?_⟩
  intro hdraws hmax a ha
  rw [he] at ha
  simp only [generateInitialParticleAges, List.mem_map] at ha
  obtain ⟨r, hr, hra⟩ := ha
  obtain ⟨hr0, hr1⟩ := hdraws r hr
  rw [← hra]
  exact ⟨by positivity, by nlinarith⟩

/-- C8, witness: `dt = 1` exceeds 10% of `maxAge = 1`, so the stale age 5 is
replaced by the fresh draw `1/2 * 1`. -/
theorem C8_age_resync_witness :
    (1 : ℚ) > 1 / 10
    ∧ renderFrameFirstSubstepAges true 1 1 [1/2] [5]
      = generateInitialParticleAges [1/2] 1 :=
  ⟨by norm_num, (C8_age_resync 1 1 [1/2] [5] (by norm_num)).1⟩

/-- C6: for a sub-threshold fade amount `x = fadeAmountPerSecond * dtSub`
(`0 ≤ x < 1/255`) the fade applied with the uniform draw `r` is exactly
`1/255` when `r < x * 255` and exactly 0 otherwise, and its expected value —
the integral over the uniform draw on `[0, 1]` — is exactly `x`; fade
amounts at least `1/255` are applied unchanged. -/
theorem C6_fade_quantisation (fps dts r : ℝ) (hr0 : 0 ≤ r) (hr1 : r < 1) :
    (0 ≤ fps * dts → fps * dts < 1/255 →
      (appliedFadeAmount fps dts r
        = if r < fps * dts * 255 then 1/255 else 0)
      ∧ ∫ u in (0:ℝ)..1, appliedFadeAmount fps dts u = fps * dts)
    ∧ (1/255 ≤ fps * dts → appliedFadeAmount fps dts r = fps * dts) := by
  constructor
  · intro hx0 hx1
    have hdiv : (fps * dts) / (1/255 : ℝ) = fps * dts * 255 := by
      field_simp
    have hpoint : ∀ u : ℝ, appliedFadeAmount fps dts u
        = if u < fps * dts * 255 then 1/255 else 0 := by
      intro u
      simp only [appliedFadeAmount]
      rw [if_pos hx1, hdiv]
    refine ⟨hpoint r, ?_⟩
    have hc0 : 0 ≤ fps * dts * 255 := by nlinarith
    have hc1 : fps * dts * 255 < 1 := by nlinarith
    have hfun : ∀ u : ℝ, appliedFadeAmount fps dts u
        = Set.indicator (Set.Iio (fps * dts * 255))
            (fun _ => (1/255 : ℝ)) u := by
      intro u
      rw [hpoint u, Set.indicator_apply]
      simp [Set.mem_Iio]
    have hset : Set.Ioc (0:ℝ) 1 ∩ Set.Iio (fps * dts * 255)
        = Set.Ioo (0:ℝ) (fps * dts * 255) := by
      ext u
      simp only [Set.mem_inter_iff, Set.mem_Ioc, Set.mem_Iio, Set.mem_Ioo]
      constructor
      · rintro ⟨⟨hu0, _⟩, hu2⟩
        exact ⟨hu0, hu2⟩
      · rintro ⟨hu0, hu2⟩
        exact ⟨⟨hu0, le_of_lt (lt_trans hu2 hc1)⟩, hu2⟩
    calc ∫ u in (0:ℝ)..1, appliedFadeAmount fps dts u
        = ∫ u in (0:ℝ)..1, Set.indicator (Set.Iio (fps * dts * 255))
            (fun _ => (1/255 : ℝ)) u := by
          exact intervalIntegral.integral_congr (fun u _ => hfun u)
      _ = ∫ u in Set.Ioc (0:ℝ) 1, Set.indicator (Set.Iio (fps * dts * 255))
            (fun _ => (1/255 : ℝ)) u := by
          exact intervalIntegral.integral_of_le (by norm_num)
      _ = ∫ _u in Set.Ioc (0:ℝ) 1 ∩ Set.Iio (fps * dts * 255),
            (1/255 : ℝ) := by
          exact MeasureTheory.setIntegral_indicator measurableSet_Iio
      _ = ∫ _u in Set.Ioo (0:ℝ) (fps * dts * 255), (1/255 : ℝ) := by
          rw [hset]
      _ = (MeasureTheory.volume
            (Set.Ioo (0:ℝ) (fps * dts * 255))).toReal * (1/255) := by
          rw [MeasureTheory.setIntegral_const]
          rw [smul_eq_mul]
      _ = fps * dts := by
          rw [Real.volume_Ioo, ENNReal.toReal_ofReal (by linarith)]
          ring
  · intro hge
    simp only [appliedFadeAmount]
    rw [if_neg (not_lt.mpr hge)]

/-- C6, witness: `x = 1/510` is below the threshold; with the draw `1/4` the
applied fade is the promoted value, and the expected fade equals `1/510`. -/
theorem C6_fade_quantisation_witness :
    (0 : ℝ) ≤ 1 * (1/510) ∧ (1 : ℝ) * (1/510) < 1/255
    ∧ (appliedFadeAmount 1 (1/510) (1/4)
        = if (1/4 : ℝ) < 1 * (1/510) * 255 then 1/255 else 0)
    ∧ ∫ u in (0:ℝ)..1, appliedFadeAmount 1 (1/510) u = 1 * (1/510) :=
  ⟨by norm_num, by norm_num,
    ((C6_fade_quantisation 1 (1/510) (1/4) (by norm_num) (by norm_num)).1
      (by norm_num) (by norm_num)).1,
    ((C6_fade_quantisation 1 (1/510) (1/4) (by norm_num) (by norm_num)).1
      (by norm_num) (by norm_num)).2⟩

/-- C9, counterexample: on a freshly constructed (uninitialised) visualiser,
`setScaling` does not throw — it succeeds and changes the stored scaling,
contradicting the claim that every listed mutating method throws a
precondition error before initialisation. -/
theorem C9_counterexample :
    (mkVisualiser 100 50 1000 16
      ⟨0, 10, 4, 1, 1/10, 1, none, none⟩).isInitialised = false
    ∧ ((mkVisualiser 100 50 1000 16
        ⟨0, 10, 4, 1, 1/10, 1, none, none⟩).setScaling ⟨2, 3, 4, 5⟩).2 = none
    ∧ ((mkVisualiser 100 50 1000 16
        ⟨0, 10, 4, 1, 1/10, 1, none, none⟩).setScaling
          ⟨2, 3, 4, 5⟩).1.scalingV = ⟨2, 3, 4, 5⟩
    ∧ (mkVisualiser 100 50 1000 16
        ⟨0, 10, 4, 1, 1/10, 1, none, none⟩).scalingV ≠ ⟨2, 3, 4, 5⟩ := by
  refine ⟨rfl, rfl, rfl, ?_⟩
  norm_num [mkVisualiser, Scaling.mk.injEq]

/-- C9, amended: on a pre-initialisation state (all renderers and the
colormap still null), `start`, `setDimensions`, `setNumParticles`,
`setColorMap`, `updateOptions` and `setVelocityImage` throw the
not-initialised error; all of them leave the state unchanged except
`setVelocityImage` with particle reset requested, which replaces the two
trail textures before throwing; `setScaling` does not throw at all and
simply stores the new scaling. -/
theorem C9_amended (s : VisState) (w h : ℚ) (n : ℕ) (cm : ColormapQ)
    (patch : VisOptionsPatch) (img : VelocityImage) (sc : Scaling)
    (hprop : s.particlePropagatorV = none)
    (hrend : s.particleRendererV = none)
    (hfinal : s.finalRendererV = none)
    (hcm : s.colorMapV = none) :
    s.start = (s, some .notInitialised)
    ∧ s.setDimensions w h = (s, some .notInitialised)
    ∧ s.setNumParticles n = (s, some .notInitialised)
    ∧ s.setColorMap cm = (s, some .notInitialised)
    ∧ s.updateOptions patch = (s, some .notInitialised)
    ∧ s.setVelocityImage img false = (s, some .notInitialised)
    ∧ s.setVelocityImage img true
      = (s.resetParticleTexture, some .notInitialised)
    ∧ s.setScaling sc = ({ s with scalingV := sc }, none) := by
  refine ⟨?_, ?_, ?_, ?_, ?_, ?_, ?_, rfl⟩
  · simp [VisState.start, VisState.isInitialised, hprop]
  · simp [VisState.setDimensions, hprop]
  · simp [VisState.setNumParticles, hprop]
  · simp [VisState.setColorMap, hfinal]
  · simp [VisState.updateOptions, hcm]
  · simp [VisState.setVelocityImage, VisState.updateVelocityImage, hprop]
  · simp [VisState.setVelocityImage, VisState.updateVelocityImage,
      VisState.resetParticleTexture, hprop]

/-- C9, witness for the amended theorem: on a freshly constructed visualiser,
`start` throws the not-initialised error and leaves the state unchanged. -/
theorem C9_amended_witness :
    (mkVisualiser 100 50 1000 16
      ⟨0, 10, 4, 1, 1/10, 1, none, none⟩).particlePropagatorV = none
    ∧ (mkVisualiser 100 50 1000 16
        ⟨0, 10, 4, 1, 1/10, 1, none, none⟩).start
      = (mkVisualiser 100 50 1000 16 ⟨0, 10, 4, 1, 1/10, 1, none, none⟩,
          some .notInitialised) :=
  ⟨rfl,
    (C9_amended (mkVisualiser 100 50 1000 16
        ⟨0, 10, 4, 1, 1/10, 1, none, none⟩)
      1 1 1 ⟨0, 1⟩ ⟨none, none, none, none, none, none, none, none⟩
      ⟨0, 0, 0, 0⟩ ⟨1, 1, 0, 0⟩ rfl rfl rfl rfl).1⟩

/-- C10: when `isRendering` is false — in particular on an uninitialised
visualiser — `renderFrame` returns at once, throwing nothing and changing
nothing; and `renderFrame` raises the not-initialised error exactly when
`isRendering` is true and some renderer or trail texture is still null. -/
theorem C10_renderFrame (s : VisState) (dt : ℚ) :
    (s.isRendering = false → s.renderFrame dt = (s, none))
    ∧ ((s.renderFrame dt).2 = some VisError.notInitialised ↔
        s.isRendering = true
        ∧ ¬(s.textureRendererV ≠ none ∧ s.particlePropagatorV ≠ none
            ∧ s.particleRendererV ≠ none ∧ s.finalRendererV ≠ none
            ∧ s.previousParticleTextureV ≠ none
            ∧ s.currentParticleTextureV ≠ none)) := by
  constructor
  · intro hr
    simp [VisState.renderFrame, hr]
  · by_cases hr : s.isRendering
    · cases hprop : s.particlePropagatorV with
      | none =>
          simp [VisState.renderFrame, hr, hprop]
      | some prop =>
          by_cases hg : s.textureRendererV = none ∨ s.particleRendererV = none
              ∨ s.finalRendererV = none ∨ s.previousParticleTextureV = none
              ∨ s.currentParticleTextureV = none
          · simp only [VisState.renderFrame, hr, hprop]
            rw [if_neg (by simp), if_pos hg]
            simp [hr]
            tauto
          · push_neg at hg
            obtain ⟨hg1, hg2, hg3, hg4, hg5⟩ := hg
            simp only [VisState.renderFrame, hr, hprop]
            rw [if_neg (by simp)]
            rw [if_neg (by tauto)]
            constructor
            · intro hcontra
              split_ifs at hcontra <;> simp_all
            · rintro ⟨_, hnot⟩
              exact absurd ⟨hg1, by simp [hprop], hg2, hg3, hg4, hg5⟩ hnot
    · simp only [Bool.not_eq_true] at hr
      simp [VisState.renderFrame, hr]

/-- C10, witness: a freshly constructed visualiser is not rendering, so
`renderFrame` returns it unchanged with no error, although it is
uninitialised. -/
theorem C10_renderFrame_witness :
    (mkVisualiser 200 100 5000 8
      ⟨1, 20, 6, 2, 1/20, 1, none, none⟩).renderFrame (1/60)
    = (mkVisualiser 200 100 5000 8 ⟨1, 20, 6, 2, 1/20, 1, none, none⟩,
        none) :=
  (C10_renderFrame (mkVisualiser 200 100 5000 8
    ⟨1, 20, 6, 2, 1/20, 1, none, none⟩) (1/60)).1 rfl

end StreamlineVis
